import Mathlib

/-!
Shallow embedding of the colourimetric core of `src/picker.js`
(SentientTurtle/colourpicker) and proofs about it.

JavaScript numbers are modelled as real numbers; a JavaScript value whose
`typeof` is not `'number'` is modelled as `Option.none : Option ℝ`, and a
thrown `Error` as `Except.error` carrying the thrown message.  The
`...Val` functions are the computation paths that run once the validation
guards have passed; the functions bearing the source names run the guards
first, exactly in source order, and then call the corresponding `...Val`
function.
-/

namespace ColourPicker

noncomputable section

/-- Validation guard used by every public function of `picker.js`:
`typeof v !== 'number' || v < 0 || v > 1` followed by a throw of
`"<name> must be number in range of 0 <= <name> <= 1"`. -/
def checkComponent (name : String) (value : Option ℝ) : Except String ℝ :=
  match value with
  | none =>
    Except.error (name ++ " must be number in range of 0 <= " ++ name ++ " <= 1")
  | some c =>
    if c < 0 ∨ c > 1 then
      Except.error (name ++ " must be number in range of 0 <= " ++ name ++ " <= 1")
    else
      Except.ok c

/-- Computation path of `linearize` (picker.js lines 10-14). -/
def linearizeVal (colourValue : ℝ) : ℝ :=
  if colourValue ≤ 0.03928 then
    colourValue / 12.92
  else
    ((colourValue + 0.055) / 1.055) ^ (2.4 : ℝ)

/-- `linearize` (picker.js lines 6-15): validate, then linearize. -/
def linearize (colourValue : Option ℝ) : Except String ℝ := do
  let c ← checkComponent "colourValue" colourValue
  pure (linearizeVal c)

/-- Computation path of `calcLuminance` (picker.js lines 35-37).  The inner
`linearize` calls cannot throw because the arguments have been validated. -/
def calcLuminanceVal (red green blue : ℝ) : ℝ :=
  0.2126 * linearizeVal red + 0.7152 * linearizeVal green + 0.0722 * linearizeVal blue

/-- `calcLuminance` (picker.js lines 24-38): validate each component in
source order, then compute the weighted sum. -/
def calcLuminance (red green blue : Option ℝ) : Except String ℝ := do
  let r ← checkComponent "red" red
  let g ← checkComponent "green" green
  let b ← checkComponent "blue" blue
  pure (calcLuminanceVal r g b)

/-- Computation path of `interpolateTints` (picker.js lines 64-78):
256 entries, entry `i` being
`(max red (1 - (1-red)/255 * i), max green ..., max blue ...)`. -/
def interpolateTintsVal (red green blue : ℝ) : List (ℝ × ℝ × ℝ) :=
  let delta_red := (1 - red) / 255
  let delta_green := (1 - green) / 255
  let delta_blue := (1 - blue) / 255
  (List.range 256).map fun i =>
    (max red (1 - delta_red * (i : ℝ)),
     max green (1 - delta_green * (i : ℝ)),
     max blue (1 - delta_blue * (i : ℝ)))

/-- The pure-hue shape guard of `interpolateTints` (picker.js line 60)
rejects the colour when this predicate holds. -/
def hueShapeViolation (red green blue : ℝ) : Prop :=
  (red ≠ 0 ∧ green ≠ 0 ∧ blue ≠ 0) ∨ (red = 1 ∧ green = 1 ∧ blue = 1) ∨
    (red ≠ 1 ∧ green ≠ 1 ∧ blue ≠ 1)

/-- A colour passing the pure-hue shape guard of `interpolateTints`. -/
def isPureHue (red green blue : ℝ) : Prop :=
  ¬hueShapeViolation red green blue

/-- A colour passing the pure-tint shape guard of `shadeToLuminance`
(picker.js line 104): at least one component equal to 1. -/
def isPureTint (red green blue : ℝ) : Prop :=
  red = 1 ∨ green = 1 ∨ blue = 1

/-- `interpolateTints` (picker.js lines 50-79): validate components and
the pure-hue shape, then build the tint array. -/
def interpolateTints (red green blue : Option ℝ) : Except String (List (ℝ × ℝ × ℝ)) := do
  let r ← checkComponent "red" red
  let g ← checkComponent "green" green
  let b ← checkComponent "blue" blue
  if (r ≠ 0 ∧ g ≠ 0 ∧ b ≠ 0) ∨ (r = 1 ∧ g = 1 ∧ b = 1) ∨ (r ≠ 1 ∧ g ≠ 1 ∧ b ≠ 1) then
    Except.error "Specified colour must be a pure hue; one component must always be 1, another in the range of 0 <= N <= 1, and the last 0"
  else
    pure (interpolateTintsVal r g b)

/-- Computation path of `shadeToLuminance` (picker.js lines 108-121). -/
def shadeToLuminanceVal (targetLuminance red green blue : ℝ) : ℝ :=
  let tintLuminance := calcLuminanceVal red green blue
  let scaledLuminance := targetLuminance / tintLuminance
  if scaledLuminance < 0.03928 / 12.92 then
    scaledLuminance * 12.92
  else
    scaledLuminance ^ ((1 : ℝ) / 2.4) * 1.055 - 0.055

/-- `shadeToLuminance` (picker.js lines 91-122): validate the target
luminance, the three components and the pure-tint shape in source order,
then compute the shade. -/
def shadeToLuminance (targetLuminance red green blue : Option ℝ) : Except String ℝ := do
  let t ← checkComponent "targetLuminance" targetLuminance
  let r ← checkComponent "red" red
  let g ← checkComponent "green" green
  let b ← checkComponent "blue" blue
  if r ≠ 1 ∧ g ≠ 1 ∧ b ≠ 1 then
    Except.error "Specified colour must be a pure tint; one colour component must be 1"
  else
    pure (shadeToLuminanceVal t r g b)

/-- JavaScript `Math.round`: round half towards positive infinity. -/
def jsRound (x : ℝ) : ℤ :=
  ⌊x + 1 / 2⌋

/-- The 8-bit clamp of `recalculateColour` (picker.js line 209):
`Math.round(component * 255) / 255`. -/
def clampTo8Bit (component : ℝ) : ℝ :=
  (jsRound (component * 255) : ℝ) / 255

/-- `recalculateColour` (picker.js lines 192-214) as a pure function of the
current hue and the pointer position: per channel,
tint = `1 + (hue - 1) * position_left`, colour = `tint * (1 - position_bottom)`,
then the 8-bit clamp. -/
def recalculateColour (hue : ℝ × ℝ × ℝ) (position_left position_bottom : ℝ) : ℝ × ℝ × ℝ :=
  let tint_red := 1 + (hue.1 - 1) * position_left
  let tint_green := 1 + (hue.2.1 - 1) * position_left
  let tint_blue := 1 + (hue.2.2 - 1) * position_left
  (clampTo8Bit (tint_red * (1 - position_bottom)),
   clampTo8Bit (tint_green * (1 - position_bottom)),
   clampTo8Bit (tint_blue * (1 - position_bottom)))

/-- Colour written by `renderChart` (picker.js lines 244-253) at row `i`,
column `j`: `current_tints[j] - (current_tints[j]/255) * i` per channel. -/
def renderChartColour (tints : List (ℝ × ℝ × ℝ)) (i j : ℕ) : ℝ × ℝ × ℝ :=
  let t := tints.getD j (0, 0, 0)
  let delta : ℝ × ℝ × ℝ := (t.1 / 255, t.2.1 / 255, t.2.2 / 255)
  (t.1 - delta.1 * (i : ℝ), t.2.1 - delta.2.1 * (i : ℝ), t.2.2 - delta.2.2 * (i : ℝ))

/-- Pixel written by `renderChart` into `imageData` at row `i`, column `j`
(picker.js lines 255-258): the colour times 255 in each channel, and the
constant alpha byte 255. -/
def renderChartPixel (tints : List (ℝ × ℝ × ℝ)) (i j : ℕ) : ℝ × ℝ × ℝ × ℝ :=
  ((renderChartColour tints i j).1 * 255,
   (renderChartColour tints i j).2.1 * 255,
   (renderChartColour tints i j).2.2 * 255,
   255)

/-- Path points produced by the B/W branch of `renderLines`
(picker.js lines 332-342): first the `moveTo` at
`(0, (1 - shadeToLuminance(0.1795, ...tints[1])) * height)`, then one
`lineTo` per index `i` at
`(i / (length - 1) * width, (1 - shadeToLuminance(0.1795, ...tints[i])) * height)`.
The `shadeToLuminance` calls are modelled by `shadeToLuminanceVal`; they
cannot throw on the tint sequences the picker feeds in (every entry is a
pure tint with components in range, see `interpolateTints_pure_tint`). -/
def renderLinesBW (tints : List (ℝ × ℝ × ℝ)) (width height : ℝ) : List (ℝ × ℝ) :=
  let t1 := tints.getD 1 (0, 0, 0)
  let shade1 := shadeToLuminanceVal 0.1795 t1.1 t1.2.1 t1.2.2
  ((0 : ℝ), (1 - shade1) * height) ::
    (List.range tints.length).map fun i =>
      let t := tints.getD i (0, 0, 0)
      let shade := shadeToLuminanceVal 0.1795 t.1 t.2.1 t.2.2
      ((i : ℝ) / ((tints.length - 1 : ℕ) : ℝ) * width, (1 - shade) * height)

/-- `recalculateContrast` (picker.js lines 275-298) as a pure function.
`red`, `green`, `blue` are the `parseInt` results of the three hex-digit
pairs (`none` models `NaN`); the clamp `Math.max(0, Math.min(255, v))` is
applied first, then the `Number.isNaN` early return, which leaves the two
luminance bounds at their previous values. -/
def recalculateContrast (red green blue : Option ℤ) (contrast_ratio : ℝ)
    (contrast_upper_luminance contrast_lower_luminance : ℝ) : ℝ × ℝ :=
  let r := red.map fun v => max 0 (min 255 v)
  let g := green.map fun v => max 0 (min 255 v)
  let b := blue.map fun v => max 0 (min 255 v)
  match r, g, b with
  | some r, some g, some b =>
    let colour_luminance := calcLuminanceVal ((r : ℝ) / 255) ((g : ℝ) / 255) ((b : ℝ) / 255)
    (0.05 * (20 * colour_luminance * contrast_ratio + contrast_ratio - 1),
     (colour_luminance - 0.05 * contrast_ratio + 0.05) / contrast_ratio)
  | _, _, _ => (contrast_upper_luminance, contrast_lower_luminance)

end

end ColourPicker

namespace ColourPicker

lemma exceptBind_ok {α β : Type} (a : α) (f : α → Except String β) :
    (Except.ok a >>= f) = f a := rfl

lemma exceptBind_error {α β : Type} (e : String) (f : α → Except String β) :
    ((Except.error e : Except String α) >>= f) = (Except.error e : Except String β) := rfl

lemma checkComponent_valid (name : String) {c : ℝ} (h0 : 0 ≤ c) (h1 : c ≤ 1) :
    checkComponent name (some c) = Except.ok c := by
  simp only [checkComponent]
  rw [if_neg]
  push_neg
  exact ⟨h0, h1⟩

lemma checkComponent_eq_ok_iff (name : String) (v : Option ℝ) (c : ℝ) :
    checkComponent name v = Except.ok c ↔ v = some c ∧ 0 ≤ c ∧ c ≤ 1 := by
  cases v with
  | none => simp [checkComponent]
  | some x =>
    simp only [checkComponent]
    split_ifs with h
    · constructor
      · intro hcontra
        exact absurd hcontra (by simp)
      · rintro ⟨hx, h0, h1⟩
        cases Option.some.injEq x c ▸ hx
        exact absurd h (by push_neg; exact ⟨h0, h1⟩)
    · push_neg at h
      constructor
      · intro hok
        cases hok
        exact ⟨rfl, h⟩
      · rintro ⟨hx, -⟩
        cases Option.some.injEq x c ▸ hx
        rfl

lemma checkComponent_isOk_iff (name : String) (v : Option ℝ) :
    (checkComponent name v).isOk = true ↔ ∃ c, v = some c ∧ 0 ≤ c ∧ c ≤ 1 := by
  cases v with
  | none => simp [checkComponent, Except.isOk, Except.toBool]
  | some x =>
    simp only [checkComponent]
    split_ifs with h
    · simp only [Except.isOk, Except.toBool, Bool.false_eq_true, false_iff]
      rintro ⟨c, hx, h0, h1⟩
      cases Option.some.injEq x c ▸ hx
      exact absurd h (by push_neg; exact ⟨h0, h1⟩)
    · push_neg at h
      simp only [Except.isOk, Except.toBool, true_iff]
      exact ⟨x, rfl, h⟩

lemma linearizeVal_nonneg {c : ℝ} (h0 : 0 ≤ c) : 0 ≤ linearizeVal c := by
  unfold linearizeVal
  split_ifs with h
  · exact div_nonneg h0 (by norm_num)
  · exact Real.rpow_nonneg (div_nonneg (by linarith) (by norm_num)) _

lemma linearizeVal_le_one {c : ℝ} (h1 : c ≤ 1) : linearizeVal c ≤ 1 := by
  unfold linearizeVal
  split_ifs with h
  · rw [div_le_one (by norm_num)]
    linarith
  · push_neg at h
    exact Real.rpow_le_one (div_nonneg (by linarith) (by norm_num))
      ((div_le_one (by norm_num)).2 (by linarith)) (by norm_num)

lemma linearizeVal_zero : linearizeVal 0 = 0 := by
  unfold linearizeVal
  rw [if_pos (by norm_num)]
  norm_num

lemma linearizeVal_one : linearizeVal 1 = 1 := by
  unfold linearizeVal
  rw [if_neg (by norm_num), show ((1 : ℝ) + 0.055) / 1.055 = 1 by norm_num, Real.one_rpow]

lemma linearizeVal_lt_one {c : ℝ} (h0 : 0 ≤ c) (h1 : c < 1) : linearizeVal c < 1 := by
  unfold linearizeVal
  split_ifs with h
  · rw [div_lt_one (by norm_num)]
    linarith
  · push_neg at h
    exact Real.rpow_lt_one (div_nonneg (by linarith) (by norm_num))
      ((div_lt_one (by norm_num)).2 (by linarith)) (by norm_num)

end ColourPicker 

namespace ColourPicker

lemma calcLuminanceVal_nonneg {r g b : ℝ} (hr : 0 ≤ r) (hg : 0 ≤ g) (hb : 0 ≤ b) :
    0 ≤ calcLuminanceVal r g b := by
  have h1 := linearizeVal_nonneg hr
  have h2 := linearizeVal_nonneg hg
  have h3 := linearizeVal_nonneg hb
  unfold calcLuminanceVal
  linarith

lemma calcLuminanceVal_le_one {r g b : ℝ} (hr : r ≤ 1) (hg : g ≤ 1) (hb : b ≤ 1) :
    calcLuminanceVal r g b ≤ 1 := by
  have h1 := linearizeVal_le_one hr
  have h2 := linearizeVal_le_one hg
  have h3 := linearizeVal_le_one hb
  unfold calcLuminanceVal
  linarith

lemma calcLuminanceVal_one : calcLuminanceVal 1 1 1 = 1 := by
  unfold calcLuminanceVal
  rw [linearizeVal_one]
  norm_num

lemma calcLuminanceVal_pos {r g b : ℝ} (hr : 0 ≤ r) (hg : 0 ≤ g) (hb : 0 ≤ b)
    (ht : isPureTint r g b) : 0 < calcLuminanceVal r g b := by
  have h1 := linearizeVal_nonneg hr
  have h2 := linearizeVal_nonneg hg
  have h3 := linearizeVal_nonneg hb
  unfold calcLuminanceVal
  rcases ht with h | h | h <;> rw [h, linearizeVal_one] <;> linarith

lemma shadeToLuminanceVal_self {r g b : ℝ} (hL : calcLuminanceVal r g b ≠ 0) :
    shadeToLuminanceVal (calcLuminanceVal r g b) r g b = 1 := by
  simp only [shadeToLuminanceVal]
  rw [div_self hL, if_neg (by norm_num), Real.one_rpow]
  norm_num

set_option maxRecDepth 4000 in
lemma interpolateTintsVal_def (r g b : ℝ) :
    interpolateTintsVal r g b = (List.range 256).map fun i : ℕ =>
      (max r (1 - (1 - r) / 255 * (i : ℝ)),
       max g (1 - (1 - g) / 255 * (i : ℝ)),
       max b (1 - (1 - b) / 255 * (i : ℝ))) := rfl

lemma interpolateTintsVal_length (r g b : ℝ) :
    (interpolateTintsVal r g b).length = 256 := by
  rw [interpolateTintsVal_def, List.length_map, List.length_range]

lemma interpolateTintsVal_get (r g b : ℝ) {i : ℕ} (hi : i < 256) :
    (interpolateTintsVal r g b).get? i =
      some (max r (1 - (1 - r) / 255 * (i : ℝ)),
            max g (1 - (1 - g) / 255 * (i : ℝ)),
            max b (1 - (1 - b) / 255 * (i : ℝ))) := by
  rw [interpolateTintsVal_def, List.get?_map, List.get?_range hi]
  rfl

lemma tint_entry_nonneg {c : ℝ} (h0 : 0 ≤ c) (i : ℕ) :
    0 ≤ max c (1 - (1 - c) / 255 * (i : ℝ)) :=
  h0.trans (le_max_left _ _)

lemma tint_entry_le_one {c : ℝ} (h1 : c ≤ 1) (i : ℕ) :
    max c (1 - (1 - c) / 255 * (i : ℝ)) ≤ 1 := by
  apply max_le h1
  have hnn : (0 : ℝ) ≤ (1 - c) / 255 * (i : ℝ) :=
    mul_nonneg (div_nonneg (by linarith) (by norm_num)) (Nat.cast_nonneg i)
  linarith

lemma tint_entry_antitone {c : ℝ} (h1 : c ≤ 1) {i j : ℕ} (hij : i ≤ j) :
    max c (1 - (1 - c) / 255 * (j : ℝ)) ≤ max c (1 - (1 - c) / 255 * (i : ℝ)) := by
  apply max_le_max le_rfl
  have hmul : (1 - c) / 255 * (i : ℝ) ≤ (1 - c) / 255 * (j : ℝ) :=
    mul_le_mul_of_nonneg_left (Nat.cast_le.mpr hij)
      (div_nonneg (by linarith) (by norm_num))
  linarith

lemma isPureHue_one {r g b : ℝ} (h : isPureHue r g b) : r = 1 ∨ g = 1 ∨ b = 1 := by
  unfold isPureHue hueShapeViolation at h
  tauto

/-- Claim C1, amended: for every valid pure hue, `interpolateTints` returns
256 entries, entry 0 equals white `(1,1,1)`, entry 255 equals the hue, and
each channel is non-increasing as the index increases (the source
interpolates from white down to the hue, not from the hue up to white). -/
theorem interpolateTints_white_to_hue (r g b : ℝ)
    (hr : 0 ≤ r ∧ r ≤ 1) (hg : 0 ≤ g ∧ g ≤ 1) (hb : 0 ≤ b ∧ b ≤ 1)
    (hhue : isPureHue r g b) :
    (interpolateTintsVal r g b).length = 256 ∧
    (interpolateTintsVal r g b).get? 0 = some (1, 1, 1) ∧
    (interpolateTintsVal r g b).get? 255 = some (r, g, b) ∧
    (∀ i j : ℕ, i ≤ j → j ≤ 255 →
      ∀ ti tj, (interpolateTintsVal r g b).get? i = some ti →
        (interpolateTintsVal r g b).get? j = some tj →
        tj.1 ≤ ti.1 ∧ tj.2.1 ≤ ti.2.1 ∧ tj.2.2 ≤ ti.2.2) := by
  have hcancel : ∀ c : ℝ, 1 - (1 - c) / 255 * ((255 : ℕ) : ℝ) = c := by
    intro c
    push_cast
    ring
  refine ⟨interpolateTintsVal_length r g b, ?_, ?_, ?_⟩
  · rw [interpolateTintsVal_get r g b (by norm_num)]
    simp only [Nat.cast_zero, mul_zero, sub_zero]
    rw [max_eq_right hr.2, max_eq_right hg.2, max_eq_right hb.2]
  · rw [interpolateTintsVal_get r g b (by norm_num)]
    rw [hcancel r, hcancel g, hcancel b, max_self, max_self, max_self]
  · intro i j hij hj255 ti tj hti htj
    rw [interpolateTintsVal_get r g b (by omega)] at hti htj
    injection hti with hti
    injection htj with htj
    subst hti
    subst htj
    exact ⟨tint_entry_antitone hr.2 hij, tint_entry_antitone hg.2 hij,
      tint_entry_antitone hb.2 hij⟩

/-- Witness for claim C1's amended theorem at the concrete pure hue
`(1, 0, 0)`. -/
theorem interpolateTints_white_to_hue_witness :
    (interpolateTintsVal 1 0 0).length = 256 ∧
    (interpolateTintsVal 1 0 0).get? 0 = some (1, 1, 1) ∧
    (interpolateTintsVal 1 0 0).get? 255 = some (1, 0, 0) ∧
    (∀ i j : ℕ, i ≤ j → j ≤ 255 →
      ∀ ti tj, (interpolateTintsVal 1 0 0).get? i = some ti →
        (interpolateTintsVal 1 0 0).get? j = some tj →
        tj.1 ≤ ti.1 ∧ tj.2.1 ≤ ti.2.1 ∧ tj.2.2 ≤ ti.2.2) :=
  interpolateTints_white_to_hue 1 0 0 (by norm_num) (by norm_num) (by norm_num)
    (by norm_num [isPureHue, hueShapeViolation])

/-- Counterexample to claim C1 as stated: for the valid pure hue
`(1, 0, 0)`, entry 0 of the tint sequence is white `(1,1,1)`, not the hue,
and the green channel decreases from 1 at index 0 to 0 at index 255, so it
is not non-decreasing. -/
theorem interpolateTints_entry0_not_hue :
    (interpolateTintsVal 1 0 0).get? 0 = some (1, 1, 1) ∧
    (interpolateTintsVal 1 0 0).get? 255 = some (1, 0, 0) ∧
    ¬((1 : ℝ), (1 : ℝ), (1 : ℝ)) = ((1 : ℝ), (0 : ℝ), (0 : ℝ)) ∧
    ¬((1 : ℝ) ≤ 0) := by
  refine ⟨?_, ?_, ?_, by norm_num⟩
  · rw [interpolateTintsVal_get 1 0 0 (by norm_num)]
    norm_num
  · rw [interpolateTintsVal_get 1 0 0 (by norm_num)]
    norm_num
  · simp [Prod.ext_iff]

/-- Claim C2: for every valid pure hue and index `0 ≤ i ≤ 255`, entry `i`
of `interpolateTints` has, per channel, the value
`max (hue_c) (1 - (1 - hue_c)/255 * i)`; in particular a channel whose hue
component is 1 stays exactly 1 at every index. -/
theorem interpolateTints_entry_formula (r g b : ℝ)
    (hr : 0 ≤ r ∧ r ≤ 1) (hg : 0 ≤ g ∧ g ≤ 1) (hb : 0 ≤ b ∧ b ≤ 1)
    (hhue : isPureHue r g b) (i : ℕ) (hi : i ≤ 255) :
    (interpolateTintsVal r g b).get? i =
      some (max r (1 - (1 - r) / 255 * (i : ℝ)),
            max g (1 - (1 - g) / 255 * (i : ℝ)),
            max b (1 - (1 - b) / 255 * (i : ℝ))) ∧
    (r = 1 → max r (1 - (1 - r) / 255 * (i : ℝ)) = 1) ∧
    (g = 1 → max g (1 - (1 - g) / 255 * (i : ℝ)) = 1) ∧
    (b = 1 → max b (1 - (1 - b) / 255 * (i : ℝ)) = 1) := by
  refine ⟨interpolateTintsVal_get r g b (by omega), ?_, ?_, ?_⟩ <;>
    rintro rfl <;> norm_num

/-- Witness for claim C2 at the pure hue `(1, 0, 0)` and index 3: the third
tint is `(1, 252/255, 252/255)` and the red channel is pinned at 1. -/
theorem interpolateTints_entry_formula_witness :
    (interpolateTintsVal 1 0 0).get? 3 = some (1, 252 / 255, 252 / 255) := by
  have h := interpolateTints_entry_formula 1 0 0 (by norm_num) (by norm_num)
    (by norm_num) (by norm_num [isPureHue, hueShapeViolation]) 3 (by norm_num)
  rw [h.1]
  norm_num

end ColourPicker

namespace ColourPicker

lemma clampTo8Bit_one : clampTo8Bit 1 = 1 := by
  have h : jsRound ((1 : ℝ) * 255) = 255 := by
    unfold jsRound
    norm_num [Int.floor_eq_iff]
  unfold clampTo8Bit
  rw [h]
  norm_num

lemma clampTo8Bit_zero : clampTo8Bit 0 = 0 := by
  have h : jsRound ((0 : ℝ) * 255) = 0 := by
    unfold jsRound
    norm_num [Int.floor_eq_iff]
  unfold clampTo8Bit
  rw [h]
  norm_num

/-- Claim C3, amended: with hue pure red `(1,0,0)`, the pure hue is
selected at pointer position `left = 1` (not `left = 0`), `bottom = 0`:
there `recalculateColour` yields exactly `(1,0,0)` after 8-bit rounding.
The tint axis runs from white at `left = 0` to the hue at `left = 1`. -/
theorem recalculateColour_left1_red :
    recalculateColour (1, 0, 0) 1 0 = ((1 : ℝ), 0, 0) := by
  unfold recalculateColour
  norm_num [clampTo8Bit_one, clampTo8Bit_zero]

/-- Counterexample to claim C3 as stated: with hue pure red `(1,0,0)` and
pointer `left = 0`, `bottom = 0`, `recalculateColour` yields white
`(1,1,1)`, which differs from the claimed `(1,0,0)`. -/
theorem recalculateColour_left0_white :
    recalculateColour (1, 0, 0) 0 0 = ((1 : ℝ), 1, 1) ∧
    ((1 : ℝ), (1 : ℝ), (1 : ℝ)) ≠ ((1 : ℝ), (0 : ℝ), (0 : ℝ)) := by
  constructor
  · unfold recalculateColour
    norm_num [clampTo8Bit_one]
  · simp [Prod.ext_iff]

/-- Claim C4, amended: in CONTRAST-BOUNDARY mode with reference colour
white `#FFFFFF` and ratio 21, `recalculateContrast` derives
`upperLuminance = 22` (not 1; in particular `upperLuminance ≥ 1`, so the
renderer clips the insufficient-contrast region to the whole field) and
`lowerLuminance = 0 ≤ 0`. -/
theorem recalculateContrast_white21 :
    recalculateContrast (some 255) (some 255) (some 255) 21 1 0 = (22, 0) := by
  unfold recalculateContrast
  norm_num [calcLuminanceVal_one, Prod.ext_iff]

/-- Counterexample to claim C4 as stated: at reference white and ratio 21
the derived upper luminance is 22, not 1. -/
theorem recalculateContrast_white21_upper_not_one :
    (recalculateContrast (some 255) (some 255) (some 255) 21 1 0).1 = 22 ∧
    (22 : ℝ) ≠ 1 := by
  constructor
  · unfold recalculateContrast
    norm_num [calcLuminanceVal_one]
  · norm_num

/-- Claim C10: if any of the three `parseInt` results of the reference hex
string is `NaN` (modelled as `none`), `recalculateContrast` returns early
and leaves the two contrast luminance bounds unchanged. -/
theorem recalculateContrast_invalid_unchanged (red green blue : Option ℤ)
    (ratio upper lower : ℝ) (h : red = none ∨ green = none ∨ blue = none) :
    recalculateContrast red green blue ratio upper lower = (upper, lower) := by
  rcases h with h | h | h <;> subst h
  · rfl
  · cases red <;> rfl
  · cases red <;> cases green <;> rfl

/-- Witness for claim C10 at a concrete invalid parse (`green` numeric,
`red` and `blue` `NaN`) and concrete prior state. -/
theorem recalculateContrast_invalid_unchanged_witness :
    recalculateContrast none (some 10) none 4.5 0.3 0.2 = (0.3, 0.2) :=
  recalculateContrast_invalid_unchanged none (some 10) none 4.5 0.3 0.2 (Or.inl rfl)

end ColourPicker

namespace ColourPicker

lemma calcLuminance_valid {r g b : ℝ} (hr : 0 ≤ r ∧ r ≤ 1) (hg : 0 ≤ g ∧ g ≤ 1)
    (hb : 0 ≤ b ∧ b ≤ 1) :
    calcLuminance (some r) (some g) (some b) = Except.ok (calcLuminanceVal r g b) := by
  unfold calcLuminance
  rw [checkComponent_valid "red" hr.1 hr.2, checkComponent_valid "green" hg.1 hg.2,
      checkComponent_valid "blue" hb.1 hb.2]
  simp only [exceptBind_ok]
  rfl

lemma shadeToLuminance_valid {t r g b : ℝ} (ht0 : 0 ≤ t) (ht1 : t ≤ 1)
    (hr : 0 ≤ r ∧ r ≤ 1) (hg : 0 ≤ g ∧ g ≤ 1) (hb : 0 ≤ b ∧ b ≤ 1)
    (htint : isPureTint r g b) :
    shadeToLuminance (some t) (some r) (some g) (some b) =
      Except.ok (shadeToLuminanceVal t r g b) := by
  unfold shadeToLuminance
  rw [checkComponent_valid "targetLuminance" ht0 ht1,
      checkComponent_valid "red" hr.1 hr.2, checkComponent_valid "green" hg.1 hg.2,
      checkComponent_valid "blue" hb.1 hb.2]
  simp only [exceptBind_ok]
  rw [if_neg]
  · rfl
  · unfold isPureTint at htint
    tauto

/-- Claim C6: round-trip identity.  For every pure tint (components in
range, at least one equal to 1), `calcLuminance` succeeds, and
`shadeToLuminance` applied to that very luminance and the same tint
returns exactly the shade 1 (exact in real arithmetic). -/
theorem shade_luminance_roundtrip (r g b : ℝ)
    (hr : 0 ≤ r ∧ r ≤ 1) (hg : 0 ≤ g ∧ g ≤ 1) (hb : 0 ≤ b ∧ b ≤ 1)
    (htint : isPureTint r g b) :
    calcLuminance (some r) (some g) (some b) = Except.ok (calcLuminanceVal r g b) ∧
    shadeToLuminance (some (calcLuminanceVal r g b)) (some r) (some g) (some b) =
      Except.ok 1 := by
  have hpos := calcLuminanceVal_pos hr.1 hg.1 hb.1 htint
  have hle := calcLuminanceVal_le_one hr.2 hg.2 hb.2
  refine ⟨calcLuminance_valid hr hg hb, ?_⟩
  rw [shadeToLuminance_valid hpos.le hle hr hg hb htint,
      shadeToLuminanceVal_self hpos.ne']

/-- Witness for claim C6 at the concrete pure tint `(1, 0, 0)`. -/
theorem shade_luminance_roundtrip_witness :
    calcLuminance (some 1) (some 0) (some 0) = Except.ok (calcLuminanceVal 1 0 0) ∧
    shadeToLuminance (some (calcLuminanceVal 1 0 0)) (some 1) (some 0) (some 0) =
      Except.ok 1 :=
  shade_luminance_roundtrip 1 0 0 (by norm_num) (by norm_num) (by norm_num) (Or.inl rfl)

/-- Claim C9: every entry of `interpolateTints` for a valid pure hue is a
pure tint (some component is exactly 1), so each `shadeToLuminance` call
the boundary renderer makes on such an entry (target 0.1795) succeeds:
the error branch is unreachable. -/
theorem interpolateTints_pure_tint (r g b : ℝ)
    (hr : 0 ≤ r ∧ r ≤ 1) (hg : 0 ≤ g ∧ g ≤ 1) (hb : 0 ≤ b ∧ b ≤ 1)
    (hhue : isPureHue r g b) :
    ∀ t ∈ interpolateTintsVal r g b,
      isPureTint t.1 t.2.1 t.2.2 ∧
      shadeToLuminance (some 0.1795) (some t.1) (some t.2.1) (some t.2.2) =
        Except.ok (shadeToLuminanceVal 0.1795 t.1 t.2.1 t.2.2) := by
  intro t hmem
  rw [interpolateTintsVal_def] at hmem
  rcases List.mem_map.1 hmem with ⟨i, hi, rfl⟩
  dsimp only
  have htint : isPureTint (max r (1 - (1 - r) / 255 * (i : ℝ)))
      (max g (1 - (1 - g) / 255 * (i : ℝ))) (max b (1 - (1 - b) / 255 * (i : ℝ))) := by
    rcases isPureHue_one hhue with h | h | h
    · left
      rw [h]
      norm_num
    · right; left
      rw [h]
      norm_num
    · right; right
      rw [h]
      norm_num
  exact ⟨htint,
    shadeToLuminance_valid (by norm_num) (by norm_num)
      ⟨tint_entry_nonneg hr.1 i, tint_entry_le_one hr.2 i⟩
      ⟨tint_entry_nonneg hg.1 i, tint_entry_le_one hg.2 i⟩
      ⟨tint_entry_nonneg hb.1 i, tint_entry_le_one hb.2 i⟩ htint⟩

/-- Witness for claim C9: the entry `(1,1,1)` of the tint sequence of the
pure hue `(1,0,0)` is a pure tint and its boundary-renderer call
succeeds. -/
theorem interpolateTints_pure_tint_witness :
    isPureTint (1 : ℝ) 1 1 ∧
    shadeToLuminance (some 0.1795) (some 1) (some 1) (some 1) =
      Except.ok (shadeToLuminanceVal 0.1795 1 1 1) := by
  have hmem : ((1 : ℝ), (1 : ℝ), (1 : ℝ)) ∈ interpolateTintsVal 1 0 0 := by
    rw [interpolateTintsVal_def]
    refine List.mem_map.2 ⟨0, List.mem_range.2 (by norm_num), ?_⟩
    norm_num
  exact interpolateTints_pure_tint 1 0 0 (by norm_num) (by norm_num) (by norm_num)
    (by norm_num [isPureHue, hueShapeViolation]) ((1 : ℝ), (1 : ℝ), (1 : ℝ)) hmem

end ColourPicker

namespace ColourPicker

lemma exceptError_isOk {β : Type} (e : String) :
    (Except.error e : Except String β).isOk = false := rfl

lemma exceptPure_isOk {β : Type} (x : β) :
    (pure x : Except String β).isOk = true := rfl

lemma checkComponent_invalid (name : String) {c : ℝ} (h : ¬(0 ≤ c ∧ c ≤ 1)) :
    checkComponent name (some c) =
      Except.error (name ++ " must be number in range of 0 <= " ++ name ++ " <= 1") := by
  simp only [checkComponent]
  rw [if_pos]
  push_neg at h
  by_cases h0 : c < 0
  · exact Or.inl h0
  · push_neg at h0
    exact Or.inr (h h0)

lemma bindCheck_isOk {β : Type} (name : String) (v : Option ℝ) (f : ℝ → Except String β) :
    ((checkComponent name v >>= f).isOk = true) ↔
      (∃ c, v = some c ∧ 0 ≤ c ∧ c ≤ 1 ∧ (f c).isOk = true) := by
  cases v with
  | none =>
    rw [show checkComponent name none =
      Except.error (name ++ " must be number in range of 0 <= " ++ name ++ " <= 1")
      from rfl, exceptBind_error, exceptError_isOk]
    simp
  | some c =>
    by_cases h : 0 ≤ c ∧ c ≤ 1
    · rw [checkComponent_valid name h.1 h.2, exceptBind_ok]
      constructor
      · intro hf
        exact ⟨c, rfl, h.1, h.2, hf⟩
      · rintro ⟨c', hc', h0, h1, hf⟩
        injection hc' with hc'
        subst hc'
        exact hf
    · rw [checkComponent_invalid name h, exceptBind_error, exceptError_isOk]
      constructor
      · intro hfalse
        exact absurd hfalse (by simp)
      · rintro ⟨c', hc', h0, h1, -⟩
        injection hc' with hc'
        subst hc'
        exact absurd ⟨h0, h1⟩ h

lemma ifError_isOk {β : Type} (C : Prop) [Decidable C] (e : String) (x : β) :
    ((if C then Except.error e else pure x : Except String β).isOk = true) ↔ ¬C := by
  split_ifs with h
  · rw [exceptError_isOk]
    simp [h]
  · rw [exceptPure_isOk]
    simp [h]

lemma notTintViolation_iff (r g b : ℝ) :
    ¬(r ≠ 1 ∧ g ≠ 1 ∧ b ≠ 1) ↔ isPureTint r g b := by
  unfold isPureTint
  tauto

lemma linearize_isOk_iff (v : Option ℝ) :
    (linearize v).isOk = true ↔ ∃ c, v = some c ∧ 0 ≤ c ∧ c ≤ 1 := by
  unfold linearize
  simp only [bindCheck_isOk, exceptPure_isOk, and_true]

lemma calcLuminance_isOk_iff (red green blue : Option ℝ) :
    (calcLuminance red green blue).isOk = true ↔
      ∃ r, red = some r ∧ 0 ≤ r ∧ r ≤ 1 ∧
        ∃ g, green = some g ∧ 0 ≤ g ∧ g ≤ 1 ∧
          ∃ b, blue = some b ∧ 0 ≤ b ∧ b ≤ 1 := by
  unfold calcLuminance
  simp only [bindCheck_isOk, exceptPure_isOk, and_true]

lemma interpolateTints_isOk_iff (red green blue : Option ℝ) :
    (interpolateTints red green blue).isOk = true ↔
      ∃ r, red = some r ∧ 0 ≤ r ∧ r ≤ 1 ∧
        ∃ g, green = some g ∧ 0 ≤ g ∧ g ≤ 1 ∧
          ∃ b, blue = some b ∧ 0 ≤ b ∧ b ≤ 1 ∧ isPureHue r g b := by
  unfold interpolateTints
  simp only [bindCheck_isOk, ifError_isOk, isPureHue, hueShapeViolation]

lemma shadeToLuminance_isOk_iff (target red green blue : Option ℝ) :
    (shadeToLuminance target red green blue).isOk = true ↔
      ∃ t, target = some t ∧ 0 ≤ t ∧ t ≤ 1 ∧
        ∃ r, red = some r ∧ 0 ≤ r ∧ r ≤ 1 ∧
          ∃ g, green = some g ∧ 0 ≤ g ∧ g ≤ 1 ∧
            ∃ b, blue = some b ∧ 0 ≤ b ∧ b ≤ 1 ∧ isPureTint r g b := by
  unfold shadeToLuminance
  simp only [bindCheck_isOk, ifError_isOk, notTintViolation_iff]

lemma calcLuminanceVal_red : calcLuminanceVal 1 0 0 = 0.2126 := by
  unfold calcLuminanceVal
  rw [linearizeVal_one, linearizeVal_zero]
  norm_num

lemma shadeToLuminanceVal_unreachable : 1 < shadeToLuminanceVal 1 1 0 0 := by
  simp only [shadeToLuminanceVal]
  rw [calcLuminanceVal_red, if_neg (by norm_num)]
  have h1 : (1 : ℝ) < ((1 : ℝ) / 0.2126) ^ ((1 : ℝ) / 2.4) := by
    rw [Real.one_lt_rpow_iff_of_pos (by norm_num)]
    exact Or.inl ⟨by norm_num, by norm_num⟩
  nlinarith [h1]

end ColourPicker

namespace ColourPicker

/-- Claim C8: each public colourimetric function (`linearize`,
`calcLuminance`, `interpolateTints`, `shadeToLuminance`) succeeds exactly
when every argument is a number in `[0,1]` and the pure-hue / pure-tint
shape constraint holds, and throws otherwise (non-number arguments are
modelled as `none`); and a valid call whose resulting shade exceeds 1
still succeeds rather than throwing or clamping. -/
theorem validation_errors_iff :
    (∀ v, (linearize v).isOk = true ↔ ∃ c, v = some c ∧ 0 ≤ c ∧ c ≤ 1) ∧
    (∀ red green blue, (calcLuminance red green blue).isOk = true ↔
      ∃ r, red = some r ∧ 0 ≤ r ∧ r ≤ 1 ∧
        ∃ g, green = some g ∧ 0 ≤ g ∧ g ≤ 1 ∧
          ∃ b, blue = some b ∧ 0 ≤ b ∧ b ≤ 1) ∧
    (∀ red green blue, (interpolateTints red green blue).isOk = true ↔
      ∃ r, red = some r ∧ 0 ≤ r ∧ r ≤ 1 ∧
        ∃ g, green = some g ∧ 0 ≤ g ∧ g ≤ 1 ∧
          ∃ b, blue = some b ∧ 0 ≤ b ∧ b ≤ 1 ∧ isPureHue r g b) ∧
    (∀ target red green blue, (shadeToLuminance target red green blue).isOk = true ↔
      ∃ t, target = some t ∧ 0 ≤ t ∧ t ≤ 1 ∧
        ∃ r, red = some r ∧ 0 ≤ r ∧ r ≤ 1 ∧
          ∃ g, green = some g ∧ 0 ≤ g ∧ g ≤ 1 ∧
            ∃ b, blue = some b ∧ 0 ≤ b ∧ b ≤ 1 ∧ isPureTint r g b) ∧
    shadeToLuminance (some 1) (some 1) (some 0) (some 0) =
      Except.ok (shadeToLuminanceVal 1 1 0 0) ∧
    1 < shadeToLuminanceVal 1 1 0 0 :=
  ⟨linearize_isOk_iff, calcLuminance_isOk_iff, interpolateTints_isOk_iff,
   shadeToLuminance_isOk_iff,
   shadeToLuminance_valid (by norm_num) (by norm_num) (by norm_num) (by norm_num)
     (by norm_num) (Or.inl rfl),
   shadeToLuminanceVal_unreachable⟩

/-- Claim C7: the field rasterizer writes, at every row `i` and column `j`
of the 256x256 grid, the colour `tint[j]` scaled per channel by
`1 - i/255` (times 255 in the byte buffer), with alpha always the fully
opaque byte 255; row 0 is the tint itself and row 255 is black. -/
theorem renderChart_pixel_spec (tints : List (ℝ × ℝ × ℝ)) (i j : ℕ)
    (hi : i ≤ 255) (hj : j < tints.length) :
    ∃ t, tints.get? j = some t ∧
      renderChartPixel tints i j =
        (255 * ((1 - (i : ℝ) / 255) * t.1),
         255 * ((1 - (i : ℝ) / 255) * t.2.1),
         255 * ((1 - (i : ℝ) / 255) * t.2.2), 255) ∧
      (i = 0 → renderChartColour tints i j = t) ∧
      (i = 255 → renderChartColour tints i j = (0, 0, 0)) := by
  have hgetD : tints.getD j (0, 0, 0) = tints.get ⟨j, hj⟩ := by
    rw [List.getD_eq_get?, List.get?_eq_get hj]
    rfl
  refine ⟨tints.get ⟨j, hj⟩, List.get?_eq_get hj, ?_, ?_, ?_⟩
  · unfold renderChartPixel renderChartColour
    rw [hgetD]
    simp only [Prod.mk.injEq]
    exact ⟨by ring, by ring, by ring, trivial⟩
  · rintro rfl
    unfold renderChartColour
    rw [hgetD]
    simp
  · rintro rfl
    unfold renderChartColour
    rw [hgetD]
    simp only [Prod.mk.injEq]
    refine ⟨?_, ?_, ?_⟩ <;> push_cast <;> ring
end ColourPicker

namespace ColourPicker

/-- Witness for claim C7 at the concrete one-column tint list
`[(1, 1/2, 0)]`, row 0, column 0. -/
theorem renderChart_pixel_spec_witness :
    ∃ t, [((1 : ℝ), (1 / 2 : ℝ), (0 : ℝ))].get? 0 = some t ∧
      renderChartPixel [((1 : ℝ), (1 / 2 : ℝ), (0 : ℝ))] 0 0 =
        (255 * ((1 - ((0 : ℕ) : ℝ) / 255) * t.1),
         255 * ((1 - ((0 : ℕ) : ℝ) / 255) * t.2.1),
         255 * ((1 - ((0 : ℕ) : ℝ) / 255) * t.2.2), 255) ∧
      ((0 : ℕ) = 0 → renderChartColour [((1 : ℝ), (1 / 2 : ℝ), (0 : ℝ))] 0 0 = t) ∧
      ((0 : ℕ) = 255 → renderChartColour [((1 : ℝ), (1 / 2 : ℝ), (0 : ℝ))] 0 0 = (0, 0, 0)) :=
  renderChart_pixel_spec [((1 : ℝ), (1 / 2 : ℝ), (0 : ℝ))] 0 0 (by norm_num) (by simp)

/-- Claim C5 (code bug, evaluated at the failing input): with hue
`(1,0,0)` and a unit canvas, the B/W boundary path of `renderLines` has
257 points, not 256: its initial `moveTo` point is computed from tint
index 1 (components `(1, 254/255, 254/255)`), and the shade of tint 1
differs from the shade of tint 0 = white, so the extra point is
geometrically distinct from the claimed first point `(0, y_0)`. -/
theorem renderLinesBW_extra_initial_point :
    (renderLinesBW (interpolateTintsVal 1 0 0) 1 1).length = 257 ∧
    (renderLinesBW (interpolateTintsVal 1 0 0) 1 1).get? 0 =
      some (0, (1 - shadeToLuminanceVal 0.1795 1 (254 / 255) (254 / 255)) * 1) ∧
    shadeToLuminanceVal 0.1795 1 (254 / 255) (254 / 255) ≠
      shadeToLuminanceVal 0.1795 1 1 1 := by
  have ht1 : (interpolateTintsVal 1 0 0).getD 1 (0, 0, 0) =
      ((1 : ℝ), (254 / 255 : ℝ), (254 / 255 : ℝ)) := by
    rw [List.getD_eq_get?, interpolateTintsVal_get 1 0 0 (by norm_num)]
    norm_num
  refine ⟨?_, ?_, ?_⟩
  · simp only [renderLinesBW, List.length_cons, List.length_map, List.length_range,
      interpolateTintsVal_length]
  · simp only [renderLinesBW, List.get?_cons_zero, ht1]
  · have hlin1 : linearizeVal (254 / 255) < 1 :=
      linearizeVal_lt_one (by norm_num) (by norm_num)
    have hlin0 : 0 ≤ linearizeVal (254 / 255) := linearizeVal_nonneg (by norm_num)
    have hL1lt : calcLuminanceVal 1 (254 / 255) (254 / 255) < 1 := by
      unfold calcLuminanceVal
      rw [linearizeVal_one]
      linarith
    have hL1pos : 0 < calcLuminanceVal 1 (254 / 255) (254 / 255) := by
      unfold calcLuminanceVal
      rw [linearizeVal_one]
      linarith
    have hdivgt : (0.1795 : ℝ) < 0.1795 / calcLuminanceVal 1 (254 / 255) (254 / 255) := by
      rw [lt_div_iff hL1pos]
      nlinarith [hL1lt]
    have hs0 : shadeToLuminanceVal 0.1795 1 1 1 =
        (0.1795 : ℝ) ^ ((1 : ℝ) / 2.4) * 1.055 - 0.055 := by
      simp only [shadeToLuminanceVal]
      rw [calcLuminanceVal_one, div_one, if_neg (by norm_num)]
    have hs1 : shadeToLuminanceVal 0.1795 1 (254 / 255) (254 / 255) =
        ((0.1795 : ℝ) / calcLuminanceVal 1 (254 / 255) (254 / 255)) ^ ((1 : ℝ) / 2.4)
          * 1.055 - 0.055 := by
      simp only [shadeToLuminanceVal]
      rw [if_neg]
      push_neg
      linarith
    have hrpow : (0.1795 : ℝ) ^ ((1 : ℝ) / 2.4) <
        ((0.1795 : ℝ) / calcLuminanceVal 1 (254 / 255) (254 / 255)) ^ ((1 : ℝ) / 2.4) :=
      Real.rpow_lt_rpow (by norm_num) hdivgt (by norm_num)
    rw [hs0, hs1]
    exact ne_of_gt (by nlinarith [hrpow])

end ColourPicker
